import Mathlib

/-!
Verification of the template-driven prompt-generation and validation pipeline
(`prompt_templates.py` + `advanced_prompting.py`).

Python strings are modelled as `List Char`; Python `dict`s as insertion-ordered
association lists; fallible code returns `Except`.  External collaborators
(the LLM backend, `json.loads`, the wall clock) enter as explicit function
parameters, never as stubs baked into the definitions under test.
-/

namespace PromptPipeline

/-- Left brace character, written via its code point. -/
def lbrace : Char := Char.ofNat 123

/-- Right brace character, written via its code point. -/
def rbrace : Char := Char.ofNat 125

/-- Python `str.strip()`: drop whitespace from both ends. -/
def pstrip (l : List Char) : List Char :=
  (((l.dropWhile Char.isWhitespace).reverse).dropWhile Char.isWhitespace).reverse

/-- Python lexicographic string comparison (`<=` on code points),
as used by `sorted` on a list of names. -/
def lexLe : List Char → List Char → Bool
  | [], _ => true
  | _ :: _, [] => false
  | a :: as, b :: bs => if a = b then lexLe as bs else decide (a < b)

/-- Insert a string into an already `lexLe`-sorted list, before the first
element it is `lexLe`-below. -/
def insertLe (x : String) : List String → List String
  | [] => [x]
  | y :: ys => if lexLe x.data y.data then x :: y :: ys else y :: insertLe x ys

/-- Python `sorted` on a list of strings (code-point lexicographic order). -/
def pysorted : List String → List String
  | [] => []
  | x :: xs => insertLe x (pysorted xs)

/-- Substring containment, Python's `needle in haystack` on strings. -/
def hasSub (p : List Char) : List Char → Bool
  | [] => p.isEmpty
  | c :: rest => p.isPrefixOf (c :: rest) || hasSub p rest

/-- Python values that can appear in a variable binding (a subset of what a
caller may pass; `str()` below matches Python's rendering of each). -/
inductive PyVal where
  | str (s : List Char)
  | int (n : Int)
  | bool (b : Bool)
  | none
deriving DecidableEq, Repr

/-- Python `str(v)` for the modelled values. -/
def strOfPyVal : PyVal → List Char
  | .str s => s
  | .int n => (toString n).data
  | .bool b => (if b then "True" else "False").data
  | .none => "None".data

/-! ## Input Validator (`advanced_prompting.py` lines 74-93) -/

/-- Error raised by `InputValidator.validate_variables` (the source raises a
`ValueError` whose message distinguishes the three cases). -/
inductive ValidationError where
  | missingFields (fields : List String)
  | emptyValues (fields : List String)
  | suspiciousInput (key : String)
deriving DecidableEq, Repr

/-- The denylist phrase checked by the injection guard (line 90). -/
def injectionPhrase : List Char := "ignore previous instructions".data

/-- Line 78: the list comprehension keeping every required field name that is
not a key of the binding. -/
def missingOf (vars : List (String × PyVal)) (required_fields : List String) :
    List String :=
  required_fields.filter (fun f => !(vars.any (fun kv => kv.1 == f)))

/-- Line 83: the list comprehension keeping every key of the binding whose
stringified value strips to the empty string. -/
def emptyOf (vars : List (String × PyVal)) : List String :=
  (vars.filter (fun kv => (pstrip (strOfPyVal kv.2)).isEmpty)).map Prod.fst

/-- Lines 88-91: a binding entry triggers the injection guard when its value is
a string whose lowercasing contains the denylist phrase. -/
def isInjection (kv : String × PyVal) : Bool :=
  match kv.2 with
  | .str s => hasSub injectionPhrase (s.map Char.toLower)
  | _ => false

/-- `InputValidator.validate_variables` (lines 74-93): missing-fields check,
then empty-value check, then injection check; returns the binding unchanged. -/
def validate_variables (vars : List (String × PyVal))
    (required_fields : List String) :
    Except ValidationError (List (String × PyVal)) :=
  if missingOf vars required_fields ≠ [] then
    .error (.missingFields (missingOf vars required_fields))
  else if emptyOf vars ≠ [] then
    .error (.emptyValues (emptyOf vars))
  else
    match vars.find? isInjection with
    | some kv => .error (.suspiciousInput kv.1)
    | Option.none => .ok vars

/-! ## Output Validator (`advanced_prompting.py` lines 99-142) -/

/-- The backtick character, written via its code point. -/
def btick : Char := Char.ofNat 96

/-- The fence marker. -/
def fence : List Char := "```".data

/-- The json-tagged fence marker. -/
def fenceJson : List Char := "```json".data

/-- Lines 113-116: drop a leading `fenceJson` (7 chars) or, failing that, a
leading bare `fence` (3 chars). -/
def stripLeadingFence (r : List Char) : List Char :=
  if fenceJson.isPrefixOf r then r.drop 7
  else if fence.isPrefixOf r then r.drop 3
  else r

/-- Lines 118-119: drop a trailing `fence` (Python `response[:-3]`). -/
def stripTrailingFence (r : List Char) : List Char :=
  if fence.isSuffixOf r then r.take (r.length - 3) else r

/-- `OutputValidator.clean_json_response` (lines 102-124): strip, drop a
leading (possibly json-tagged) fence, drop a trailing fence, strip again. -/
def clean_json_response (response : List Char) : List Char :=
  pstrip (stripTrailingFence (stripLeadingFence (pstrip response)))

/-- Error raised by `OutputValidator.validate_json` (lines 126-142); the source
raises `ValueError` with a message distinguishing the two cases. -/
inductive JsonError where
  | invalidJson
  | missingOutputFields (fields : List String)
deriving DecidableEq, Repr

/-- `OutputValidator.validate_json` (lines 126-142): clean, parse with the
external `json.loads` (passed in as `loads`; `Option.none` models a
`JSONDecodeError`), then check required fields.  Python's
`if required_fields:` skips the check for `None` and for the empty list. -/
def validate_json (loads : List Char → Option (List (String × PyVal)))
    (response : List Char) (required_fields : Option (List String)) :
    Except JsonError (List (String × PyVal)) :=
  match loads (clean_json_response response) with
  | Option.none => .error .invalidJson
  | some data =>
    match required_fields with
    | Option.none => .ok data
    | some rf =>
      if rf = [] then .ok data
      else if rf.filter (fun f => !(data.any (fun kv => kv.1 == f))) ≠ [] then
        .error (.missingOutputFields
          (rf.filter (fun f => !(data.any (fun kv => kv.1 == f)))))
      else .ok data

/-! ## Configuration presets (`advanced_prompting.py` lines 49-65) -/

/-- A configuration preset.  The source stores `temperature` as a float with
one decimal digit; it is modelled here in tenths to stay in exact
arithmetic. -/
structure Config where
  temperature_tenths : Nat
  max_tokens : Nat
  description : String
deriving DecidableEq, Repr

/-- The `"balanced"` preset, `CONFIGS["balanced"]`. -/
def balancedConfig : Config :=
  ⟨7, 1000, "Balanced creativity and consistency"⟩

/-- The `CONFIGS` dictionary (lines 49-65). -/
def CONFIGS : List (String × Config) :=
  [("factual", ⟨0, 500, "Deterministic, factual responses"⟩),
   ("balanced", balancedConfig),
   ("creative", ⟨10, 1500, "Maximum creativity"⟩)]

/-- Python `d.get(k)` on an insertion-ordered dictionary. -/
def dictGet (d : List (String × α)) (k : String) : Option α :=
  (d.find? (fun kv => kv.1 == k)).map Prod.snd

/-- Python `d[k] = v`: overwrite in place when the key exists, else append. -/
def dictInsert (d : List (String × α)) (k : String) (v : α) : List (String × α) :=
  if d.any (fun kv => kv.1 == k) then
    d.map (fun kv => if kv.1 == k then (k, v) else kv)
  else d ++ [(k, v)]

/-! ## Template Store (`prompt_templates.py`) -/

/-- Content of one message entry in the definition source: a single string or
a list of strings joined with newlines at load time (lines 126-129). -/
inductive MsgContent where
  | str (s : String)
  | arr (xs : List String)
deriving DecidableEq, Repr

/-- One raw message object of the definition source; a `Option.none` field
models an absent `"role"` / `"content"` key (line 120). -/
structure RawMsg where
  role : Option String
  content : Option MsgContent
deriving DecidableEq, Repr

/-- Metadata stored per template (lines 111-115). -/
structure TemplateMeta where
  pattern : String
  description : String
  input_variables : List String
deriving DecidableEq, Repr

/-- One template entry of the definition source; an `Option.none` field models
an absent key (`config.get` defaults at lines 112-114, the `"messages"`
presence check at line 107). -/
structure TemplateConfig where
  pattern : Option String
  description : Option String
  input_variables : Option (List String)
  messages : Option (List RawMsg)
deriving DecidableEq, Repr

/-- Scanner for `extractPlaceholders`: the second argument holds the reversed
characters of a placeholder name currently being read, if any. -/
def extractGo : List Char → Option (List Char) → List String
  | [], _ => []
  | c :: rest, Option.none =>
    if c = lbrace then extractGo rest (some [])
    else extractGo rest Option.none
  | c :: rest, some acc =>
    if c = rbrace then String.mk acc.reverse :: extractGo rest Option.none
    else extractGo rest (some (c :: acc))

/-- Extract `\x7bname\x7d` placeholders from a content string, in order of
appearance.  Modelled from the external templating library
(`ChatPromptTemplate` derives a template's input variables from the
placeholders of its message contents). -/
def extractPlaceholders (l : List Char) : List String :=
  extractGo l Option.none

/-- A loaded template, modelling the `ChatPromptTemplate` built at line 134:
an ordered list of `(role, content)` pairs. -/
structure ChatTemplate where
  messages : List (String × String)
deriving DecidableEq, Repr

/-- The template's declared variables, as the external templating library
derives them from the message placeholders (deduplicated, first occurrence
order). -/
def ChatTemplate.input_variables (t : ChatTemplate) : List String :=
  (t.messages.flatMap (fun m => extractPlaceholders m.2.data)).dedup

/-- Lines 118-131: turn the raw message list into `(role, content)` tuples.
`Option.none` models the `ValueError` raised on a message lacking `"role"` or
`"content"`; array content is joined with newlines. -/
def buildMessages : List RawMsg → Option (List (String × String))
  | [] => some []
  | m :: rest =>
    match m.role, m.content with
    | some r, some c =>
      (buildMessages rest).map (fun tail =>
        (r, match c with
            | .str s => s
            | .arr xs => String.intercalate "\n" xs) :: tail)
    | _, _ => Option.none

/-- In-memory state of a `PromptLibrary`: the two dictionaries mutated by
`_load_templates` (lines 56-57). -/
structure PromptLibrary where
  templates : List (String × ChatTemplate)
  template_metadata : List (String × TemplateMeta)
deriving DecidableEq, Repr

/-- The definition source as seen by `_load_templates`: an absent file
(`FileNotFoundError` from `open`), a malformed document
(`json.JSONDecodeError`), or a parsed ordered mapping. -/
inductive DefSource where
  | absent
  | malformed
  | doc (entries : List (String × TemplateConfig))
deriving DecidableEq, Repr

/-- Failure of a load, as raised by `_load_templates`. -/
inductive LoadError where
  | fileError
  | jsonError
  | loadFailed (template_name : String)
deriving DecidableEq, Repr

/-- The per-entry loop of `_load_templates` (lines 104-139).  The Python loop
mutates `self.templates` / `self.template_metadata` in place, so the state
reached before an exception persists: the result carries both the final state
and the error, if any.  Per entry, the `"messages"` presence check runs first,
then the metadata store, then message building, then the template store. -/
def loadLoop : PromptLibrary → List (String × TemplateConfig) →
    PromptLibrary × Option LoadError
  | lib, [] => (lib, Option.none)
  | lib, (name, config) :: rest =>
    match config.messages with
    | Option.none => (lib, some (.loadFailed name))
    | some msgs =>
      let lib1 : PromptLibrary :=
        ⟨lib.templates,
         dictInsert lib.template_metadata name
           ⟨config.pattern.getD "Unknown",
            config.description.getD "No description",
            config.input_variables.getD []⟩⟩
      match buildMessages msgs with
      | Option.none => (lib1, some (.loadFailed name))
      | some tuples =>
        loadLoop ⟨dictInsert lib1.templates name ⟨tuples⟩,
                  lib1.template_metadata⟩ rest

/-- `PromptLibrary._load_templates` (lines 70-141): open and parse the source
(aborting before any mutation on an absent or malformed file), then run the
entry loop on the current state. -/
def load_templates (lib : PromptLibrary) (source : DefSource) :
    PromptLibrary × Option LoadError :=
  match source with
  | .absent => (lib, some .fileError)
  | .malformed => (lib, some .jsonError)
  | .doc entries => loadLoop lib entries

/-- `PromptLibrary.reload_templates` (lines 143-155): clear both dictionaries,
then reload from the source. -/
def reload_templates (_lib : PromptLibrary) (source : DefSource) :
    PromptLibrary × Option LoadError :=
  load_templates ⟨[], []⟩ source

/-- An entry the load loop processes without raising: it has a `"messages"`
list and every message has both `"role"` and `"content"`. -/
def entryOk (e : String × TemplateConfig) : Bool :=
  match e.2.messages with
  | Option.none => false
  | some msgs => (buildMessages msgs).isSome

/-- Category of a template name (line 241):
`name.split("_")[0] if "_" in name else name`. -/
def categoryOf (name : String) : String :=
  String.mk (name.data.takeWhile (fun c => !(c == Char.ofNat 95)))

/-- `PromptLibrary.list_templates` (lines 201-221): all names sorted, or, for
a truthy category argument, the names starting with the lowercased category,
sorted.  Python's `if category:` treats the empty string as no filter. -/
def list_templates (lib : PromptLibrary) (category : Option String) :
    List String :=
  match category with
  | some c =>
    if c = "" then pysorted (lib.templates.map Prod.fst)
    else pysorted ((lib.templates.map Prod.fst).filter
      (fun n => (c.data.map Char.toLower).isPrefixOf n.data))
  | Option.none => pysorted (lib.templates.map Prod.fst)

/-! ## Generation Orchestrator (`advanced_prompting.py` lines 193-281) -/

/-- The validation status string written into `result["metadata"]["validation"]`
(lines 277-279). -/
inductive ValStatus where
  | passed
  | failed (e : JsonError)
deriving DecidableEq, Repr

/-- The dictionary returned by `generate` (lines 259-281).  `latency_ms` is
external wall-clock time and is not modelled. -/
structure GenResult where
  response : List Char
  template : String
  config : String
  model : String
  parsed_json : Option (List (String × PyVal))
  validation : Option ValStatus
deriving DecidableEq, Repr

/-- A failure that aborts `generate`: unknown template (line 217, and the
`ValueError` of `get_template`) or input validation (line 223). -/
inductive GenError where
  | templateNotFound (name : String)
  | inputInvalid (e : ValidationError)
deriving DecidableEq, Repr

/-- Line 226: `CONFIGS.get(config_name, CONFIGS["balanced"])`. -/
def resolveConfig (config_name : String) : Config :=
  (dictGet CONFIGS config_name).getD balancedConfig

/-- `AdvancedPromptSystem.generate` (lines 193-281): look up the template,
validate the input variables against the template's declared variables,
resolve the config preset with a silent fallback to `"balanced"`, invoke the
external model backend (passed in as `backend`, a function of the resolved
generation parameters; message formatting and the provider dispatch are
delegated to external SDKs), assemble the result, and, when requested,
validate the output — downgrading a validation failure to a metadata status
(lines 269-279, `except ValueError`). -/
def generate (lib : PromptLibrary)
    (loads : List Char → Option (List (String × PyVal)))
    (backend : Config → List Char) (model_name : String)
    (template_name : String) (vars : List (String × PyVal))
    (config_name : String) (validate_output : Bool)
    (required_output_fields : Option (List String)) :
    Except GenError GenResult :=
  match dictGet lib.templates template_name with
  | Option.none => .error (.templateNotFound template_name)
  | some template =>
    match validate_variables vars template.input_variables with
    | .error e => .error (.inputInvalid e)
    | .ok _ =>
      let response_text := backend (resolveConfig config_name)
      let base : GenResult :=
        ⟨response_text, template_name, config_name, model_name,
         Option.none, Option.none⟩
      if validate_output then
        match validate_json loads response_text required_output_fields with
        | .ok parsed =>
          .ok ⟨response_text, template_name, config_name, model_name,
               some parsed, some .passed⟩
        | .error e =>
          .ok ⟨response_text, template_name, config_name, model_name,
               Option.none, some (.failed e)⟩
      else .ok base

/-! ## Assignment (A/B) Selector (`advanced_prompting.py` lines 304-307) -/

/-- The version-assignment step of `AdvancedPromptSystem.ab_test` (lines
304-306): `versions[hash(user_id) % len(versions)]`.  Python's `hash` is
process-seeded but fixed within one run; it enters as the parameter `hashFn`.
An empty version list would raise `ZeroDivisionError`, modelled as
`Option.none`. -/
def ab_test_assignment (hashFn : String → Int) (user_id : String)
    (versions : List String) : Option String :=
  if h : versions.length = 0 then Option.none
  else
    some (versions.get
      ⟨(hashFn user_id % (versions.length : Int)).toNat, by
        have h1 := Int.emod_nonneg (hashFn user_id)
          (by exact_mod_cast h : (versions.length : Int) ≠ 0)
        have h2 := Int.emod_lt_of_pos (hashFn user_id)
          (by omega : 0 < (versions.length : Int))
        omega⟩)

/-! ## Concrete fixtures used when evaluating theorems on closed inputs -/

/-- A template whose messages use no placeholders (so it declares no
input variables). -/
def plainTemplate : ChatTemplate := ⟨[("system", "s"), ("user", "hi")]⟩

/-- A one-template store. -/
def libW : PromptLibrary := ⟨[("t", plainTemplate)], []⟩

/-- A store with two template names sharing the name prefix `sentiment`
while belonging to different underscore-categories. -/
def lib7 : PromptLibrary :=
  ⟨[("sentiment_v1", plainTemplate), ("sentimental_v1", plainTemplate)], []⟩

/-- A well-formed definition-source entry. -/
def cfgGood : TemplateConfig :=
  ⟨some "Zero-Shot", some "d", some ["text"],
   some [⟨some "system", some (.str "hello")⟩]⟩

/-- A definition-source entry lacking the `"messages"` field. -/
def cfgBad : TemplateConfig :=
  ⟨Option.none, Option.none, Option.none, Option.none⟩

/-- A store state holding one previously loaded template. -/
def priorLib : PromptLibrary := ⟨[("old", ⟨[("system", "s")]⟩)], []⟩

/-! ## Input Validator lemmas -/

theorem mem_missingOf (vars : List (String × PyVal)) (req : List String)
    (f : String) :
    f ∈ missingOf vars req ↔ f ∈ req ∧ ∀ v, (f, v) ∉ vars := by
  unfold missingOf
  rw [List.mem_filter]
  refine and_congr_right fun _ => ?_
  rw [Bool.not_eq_true', List.any_eq_false]
  constructor
  · intro h v hv
    have := h (f, v) hv
    simp at this
  · intro h kv hkv
    simp only [beq_iff_eq, decide_eq_false_iff_not]
    intro hk
    apply h kv.2
    rw [← hk, Prod.mk.eta]
    exact hkv

theorem mem_emptyOf (vars : List (String × PyVal)) (k : String) :
    k ∈ emptyOf vars ↔ ∃ v, (k, v) ∈ vars ∧ pstrip (strOfPyVal v) = [] := by
  unfold emptyOf
  rw [List.mem_map]
  constructor
  · rintro ⟨kv, hkv, rfl⟩
    rw [List.mem_filter] at hkv
    exact ⟨kv.2, by rw [Prod.mk.eta]; exact hkv.1,
      by simpa [List.isEmpty_iff] using hkv.2⟩
  · rintro ⟨v, hv, hempty⟩
    exact ⟨(k, v), List.mem_filter.mpr ⟨hv, by simpa [List.isEmpty_iff]⟩, rfl⟩

/-- C5: whenever at least one required name is absent from the binding,
`validate_variables` fails with the missing-fields error, and the reported
list contains exactly the absent required names. -/
theorem c5_missing_fields_exact (vars : List (String × PyVal))
    (req : List String) (f0 : String)
    (h0 : f0 ∈ req) (h1 : ∀ v, (f0, v) ∉ vars) :
    validate_variables vars req = .error (.missingFields (missingOf vars req)) ∧
    ∀ f, f ∈ missingOf vars req ↔ (f ∈ req ∧ ∀ v, (f, v) ∉ vars) := by
  have hne : missingOf vars req ≠ [] := by
    intro hnil
    have := (mem_missingOf vars req f0).mpr ⟨h0, h1⟩
    rw [hnil] at this
    exact absurd this (List.not_mem_nil f0)
  refine ⟨?_, mem_missingOf vars req⟩
  unfold validate_variables
  rw [if_pos hne]

theorem c5_missing_fields_exact_witness :
    validate_variables [("a", .str "x".data)] ["a", "b"] =
      .error (.missingFields (missingOf [("a", .str "x".data)] ["a", "b"])) ∧
    ∀ f, f ∈ missingOf [("a", .str "x".data)] ["a", "b"] ↔
      (f ∈ ["a", "b"] ∧ ∀ v, (f, v) ∉ [("a", PyVal.str "x".data)]) :=
  c5_missing_fields_exact [("a", .str "x".data)] ["a", "b"] "b"
    (by decide) (fun v hv => by simp at hv)

/-- C9: once the missing-fields check passes, the empty-value check ranges
over every key of the binding — required or not — and reports exactly the
keys whose stringified value strips to empty. -/
theorem c9_empty_check_all_keys (vars : List (String × PyVal))
    (req : List String) (hmiss : missingOf vars req = [])
    (k0 : String) (v0 : PyVal) (hk : (k0, v0) ∈ vars)
    (hempty : pstrip (strOfPyVal v0) = []) :
    validate_variables vars req = .error (.emptyValues (emptyOf vars)) ∧
    ∀ k, k ∈ emptyOf vars ↔ ∃ v, (k, v) ∈ vars ∧ pstrip (strOfPyVal v) = [] := by
  have hne : emptyOf vars ≠ [] := by
    intro hnil
    have := (mem_emptyOf vars k0).mpr ⟨v0, hk, hempty⟩
    rw [hnil] at this
    exact absurd this (List.not_mem_nil k0)
  refine ⟨?_, mem_emptyOf vars⟩
  unfold validate_variables
  rw [if_neg (by simp [hmiss]), if_pos hne]

theorem c9_empty_check_all_keys_witness :
    validate_variables [("a", .str "x".data), ("extra", .str "  ".data)] ["a"] =
      .error (.emptyValues (emptyOf [("a", .str "x".data), ("extra", .str "  ".data)])) ∧
    ∀ k, k ∈ emptyOf [("a", .str "x".data), ("extra", .str "  ".data)] ↔
      ∃ v, (k, v) ∈ [("a", PyVal.str "x".data), ("extra", PyVal.str "  ".data)] ∧
        pstrip (strOfPyVal v) = [] :=
  c9_empty_check_all_keys [("a", .str "x".data), ("extra", .str "  ".data)] ["a"]
    (by decide) "extra" (.str "  ".data) (by decide) (by decide)

/-- C10: the three checks are ordered — a nonempty missing list wins outright,
the empty-value check fires only when nothing is missing, and a suspicious-
input failure implies both earlier checks passed and that the flagged key
holds a string value containing the denylist phrase. -/
theorem c10_check_precedence (vars : List (String × PyVal))
    (req : List String) :
    (missingOf vars req ≠ [] →
      validate_variables vars req = .error (.missingFields (missingOf vars req))) ∧
    (missingOf vars req = [] → emptyOf vars ≠ [] →
      validate_variables vars req = .error (.emptyValues (emptyOf vars))) ∧
    (∀ k, validate_variables vars req = .error (.suspiciousInput k) →
      missingOf vars req = [] ∧ emptyOf vars = [] ∧
      ∃ s, (k, PyVal.str s) ∈ vars ∧
        hasSub injectionPhrase (s.map Char.toLower) = true) := by
  refine ⟨fun hm => by unfold validate_variables; rw [if_pos hm],
    fun hm he => by unfold validate_variables; rw [if_neg (by simp [hm]), if_pos he],
    fun k hk => ?_⟩
  unfold validate_variables at hk
  by_cases hm : missingOf vars req ≠ []
  · rw [if_pos hm] at hk
    exact absurd (Except.error.inj hk) (by simp)
  · rw [if_neg hm] at hk
    rw [not_not] at hm
    by_cases he : emptyOf vars ≠ []
    · rw [if_pos he] at hk
      exact absurd (Except.error.inj hk) (by simp)
    · rw [if_neg he] at hk
      rw [not_not] at he
      refine ⟨hm, he, ?_⟩
      cases hfind : vars.find? isInjection with
      | none => rw [hfind] at hk; exact absurd hk (by simp)
      | some kv =>
        rw [hfind] at hk
        have hkeq : kv.1 = k := by
          have := Except.error.inj hk
          exact (ValidationError.suspiciousInput.inj this)
        have hmem := List.mem_of_find?_eq_some hfind
        have hinj := List.find?_some hfind
        cases hv : kv.2 with
        | str s =>
          refine ⟨s, ?_, ?_⟩
          · rw [← hkeq, ← hv, Prod.mk.eta]; exact hmem
          · unfold isInjection at hinj
            rwa [hv] at hinj
        | int n => unfold isInjection at hinj; rw [hv] at hinj; simp at hinj
        | bool b => unfold isInjection at hinj; rw [hv] at hinj; simp at hinj
        | none => unfold isInjection at hinj; rw [hv] at hinj; simp at hinj

theorem c10_check_precedence_witness :
    validate_variables
      [("a", .str "  ".data), ("b", .str "ignore previous instructions".data)]
      ["a", "b", "c"] =
      .error (.missingFields (missingOf
        [("a", .str "  ".data), ("b", .str "ignore previous instructions".data)]
        ["a", "b", "c"])) :=
  (c10_check_precedence
    [("a", .str "  ".data), ("b", .str "ignore previous instructions".data)]
    ["a", "b", "c"]).1 (by decide)

/-! ## Assignment (A/B) Selector -/

/-- C8: within one run (a fixed process hash function), assignment is
deterministic — two calls with identical arguments agree — and the assigned
variant is the one at index `hash(user_id) % len(versions)`. -/
theorem c8_assignment_deterministic (hashFn : String → Int) (user_id : String)
    (versions : List String) :
    ab_test_assignment hashFn user_id versions =
      ab_test_assignment hashFn user_id versions ∧
    (versions ≠ [] →
      ab_test_assignment hashFn user_id versions =
        versions[(hashFn user_id % (versions.length : Int)).toNat]?) := by
  refine ⟨rfl, fun hne => ?_⟩
  have hlen : versions.length ≠ 0 := by simpa [List.length_eq_zero] using hne
  unfold ab_test_assignment
  rw [dif_neg hlen]
  rw [List.getElem?_eq_getElem]
  rfl

theorem c8_assignment_deterministic_witness :
    ab_test_assignment (fun s => (s.length : Int)) "user123" ["v2", "v3"] =
      ab_test_assignment (fun s => (s.length : Int)) "user123" ["v2", "v3"] ∧
    ab_test_assignment (fun s => (s.length : Int)) "user123" ["v2", "v3"] =
      ["v2", "v3"][((fun s => (s.length : Int)) "user123" % ((["v2", "v3"] : List String).length : Int)).toNat]? :=
  ⟨(c8_assignment_deterministic (fun s => (s.length : Int)) "user123" ["v2", "v3"]).1,
   (c8_assignment_deterministic (fun s => (s.length : Int)) "user123" ["v2", "v3"]).2
     (by decide)⟩

/-! ## Generation Orchestrator -/

/-- C6: an unrecognized `config_name` does not abort `generate`; the
generation parameters silently resolve to the `"balanced"` preset and the
backend call proceeds with them (the metadata still records the requested
name). -/
theorem c6_unknown_config_falls_back (lib : PromptLibrary)
    (loads : List Char → Option (List (String × PyVal)))
    (backend : Config → List Char) (model_name template_name : String)
    (vars : List (String × PyVal)) (config_name : String)
    (validate_output : Bool) (required_output_fields : Option (List String))
    (tmpl : ChatTemplate)
    (hC : dictGet CONFIGS config_name = Option.none)
    (hT : dictGet lib.templates template_name = some tmpl)
    (hV : validate_variables vars tmpl.input_variables = .ok vars) :
    ∃ r, generate lib loads backend model_name template_name vars config_name
        validate_output required_output_fields = .ok r ∧
      r.response = backend balancedConfig ∧ r.config = config_name := by
  have hcfg : resolveConfig config_name = balancedConfig := by
    unfold resolveConfig
    rw [hC]
    rfl
  unfold generate
  simp only [hT, hV, hcfg]
  cases validate_output with
  | false =>
    exact ⟨⟨backend balancedConfig, template_name, config_name, model_name,
            Option.none, Option.none⟩, rfl, rfl, rfl⟩
  | true =>
    cases hJ : validate_json loads (backend balancedConfig)
        required_output_fields with
    | ok parsed =>
      exact ⟨⟨backend balancedConfig, template_name, config_name, model_name,
              some parsed, some .passed⟩, rfl, rfl, rfl⟩
    | error e =>
      exact ⟨⟨backend balancedConfig, template_name, config_name, model_name,
              Option.none, some (.failed e)⟩, rfl, rfl, rfl⟩

theorem c6_unknown_config_falls_back_witness :
    ∃ r, generate libW (fun _ => Option.none) (fun c => c.description.data)
        "gemini-2.5-flash" "t" [] "nonexistent" false Option.none = .ok r ∧
      r.response = (fun (c : Config) => c.description.data) balancedConfig ∧
      r.config = "nonexistent" :=
  c6_unknown_config_falls_back libW (fun _ => Option.none)
    (fun c => c.description.data) "gemini-2.5-flash" "t" [] "nonexistent"
    false Option.none plainTemplate rfl rfl rfl

/-- C2: when the backend call succeeds but output validation fails — parse
failure or a missing required output field — `generate` does not raise: it
returns the result carrying the raw response text, no parsed output, and a
validation-failed status in its metadata. -/
theorem c2_output_validation_degrades (lib : PromptLibrary)
    (loads : List Char → Option (List (String × PyVal)))
    (backend : Config → List Char) (model_name template_name : String)
    (vars : List (String × PyVal)) (config_name : String)
    (required_output_fields : Option (List String))
    (tmpl : ChatTemplate) (e : JsonError)
    (hT : dictGet lib.templates template_name = some tmpl)
    (hV : validate_variables vars tmpl.input_variables = .ok vars)
    (hJ : validate_json loads (backend (resolveConfig config_name))
        required_output_fields = .error e) :
    generate lib loads backend model_name template_name vars config_name
        true required_output_fields =
      .ok ⟨backend (resolveConfig config_name), template_name, config_name,
           model_name, Option.none, some (.failed e)⟩ := by
  unfold generate
  simp only [hT, hV, if_true, hJ]

theorem c2_output_validation_degrades_witness :
    generate libW (fun _ => Option.none) (fun _ => "not json".data)
        "gemini-2.5-flash" "t" [] "balanced" true (some ["sentiment"]) =
      .ok ⟨"not json".data, "t", "balanced", "gemini-2.5-flash",
           Option.none, some (.failed .invalidJson)⟩ :=
  c2_output_validation_degrades libW (fun _ => Option.none)
    (fun _ => "not json".data) "gemini-2.5-flash" "t" [] "balanced"
    (some ["sentiment"]) plainTemplate .invalidJson rfl rfl rfl

/-! ## Output-cleaning lemmas -/

theorem dropWhile_self {α : Type} (p : α → Bool) (l : List α) :
    List.dropWhile p (List.dropWhile p l) = List.dropWhile p l := by
  have h := List.head?_dropWhile_not p l
  cases hX : List.dropWhile p l with
  | nil => rfl
  | cons a t =>
    rw [hX] at h
    simp only [List.head?_cons] at h
    rw [List.dropWhile_cons, if_neg (by simp [h])]

theorem pstrip_idem (l : List Char) : pstrip (pstrip l) = pstrip l := by
  unfold pstrip
  generalize hA : List.dropWhile Char.isWhitespace l = A
  generalize hB : List.dropWhile Char.isWhitespace A.reverse = B
  cases hBc : B with
  | nil => simp
  | cons b bs =>
    have hBne : B ≠ [] := by rw [hBc]; simp
    obtain ⟨c, hc⟩ : ∃ c, B.getLast? = some c := by
      rw [hBc]; exact ⟨(b :: bs).getLast (by simp), List.getLast?_eq_getLast _ _⟩
    have hAlast : A.reverse.getLast? = some c := by
      obtain ⟨t, ht⟩ := List.dropWhile_suffix (l := A.reverse) Char.isWhitespace
      rw [hB] at ht
      rw [← ht, List.getLast?_append, hc]
      rfl
    have hchead : A.head? = some c := by
      rwa [List.getLast?_reverse] at hAlast
    have hcw : Char.isWhitespace c = false := by
      have h := List.head?_dropWhile_not Char.isWhitespace l
      rw [hA, hchead] at h
      exact h
    have hrev : List.dropWhile Char.isWhitespace B.reverse = B.reverse := by
      cases hRB : B.reverse with
      | nil => rfl
      | cons x u =>
        have : B.reverse.head? = some c := by rw [List.head?_reverse, hc]
        rw [hRB, List.head?_cons] at this
        rw [List.dropWhile_cons,
          if_neg (by rw [Option.some.inj this, hcw]; simp)]
    rw [← hBc, hrev, List.reverse_reverse, ← hB, dropWhile_self, hB]

theorem pstrip_wrap (x y : Char) (mid : List Char) (hx : x.isWhitespace = false)
    (hy : y.isWhitespace = false) :
    pstrip (x :: (mid ++ [y])) = x :: (mid ++ [y]) := by
  unfold pstrip
  rw [List.dropWhile_cons, if_neg (by simp [hx])]
  rw [show (x :: (mid ++ [y])).reverse = y :: (mid.reverse ++ [x]) by simp]
  rw [List.dropWhile_cons, if_neg (by simp [hy])]
  rw [show (y :: (mid.reverse ++ [x])).reverse = x :: (mid ++ [y]) by simp]

theorem isPrefixOf_append_both (a x y : List Char) :
    (a ++ x).isPrefixOf (a ++ y) = x.isPrefixOf y := by
  induction a with
  | nil => rfl
  | cons c cs ih => simp [List.isPrefixOf, ih]

theorem json_prefix_past_fence (c : List Char) :
    "json".data.isPrefixOf (c ++ fence) = "json".data.isPrefixOf c := by
  have hj : "json".data = ['j', 's', 'o', 'n'] := by decide
  have hf : fence = [btick, btick, btick] := by decide
  rw [hj, hf]
  match c with
  | [] => decide
  | [a] =>
    simp [List.isPrefixOf, show ('s' == btick) = false from by decide]
  | [a, b] =>
    simp [List.isPrefixOf, show ('o' == btick) = false from by decide]
  | [a, b, d] =>
    simp [List.isPrefixOf, show ('n' == btick) = false from by decide]
  | a :: b :: d :: e :: rest =>
    simp [List.isPrefixOf]

theorem clean_json_tagged (c : List Char) :
    clean_json_response (fenceJson ++ c ++ fence) = pstrip c := by
  unfold clean_json_response
  have h1 : pstrip (fenceJson ++ c ++ fence) = fenceJson ++ c ++ fence := by
    rw [show fenceJson ++ c ++ fence =
          btick :: (("``json".data ++ c ++ "``".data) ++ [btick]) by
        rw [show fenceJson = btick :: "``json".data from by decide,
            show fence = "``".data ++ [btick] from by decide]
        simp]
    exact pstrip_wrap _ _ _ (by decide) (by decide)
  rw [h1]
  unfold stripLeadingFence
  rw [if_pos (by
    rw [List.isPrefixOf_iff_prefix, List.append_assoc]
    exact List.prefix_append _ _)]
  rw [List.append_assoc, List.drop_left' (by decide : fenceJson.length = 7)]
  unfold stripTrailingFence
  rw [if_pos (by
    rw [List.isSuffixOf_iff_suffix]
    exact List.suffix_append _ _)]
  rw [show (c ++ fence).length - 3 = c.length by simp [fence], List.take_left]

theorem clean_json_bare (c : List Char)
    (h : "json".data.isPrefixOf c = false) :
    clean_json_response (fence ++ c ++ fence) = pstrip c := by
  unfold clean_json_response
  have h1 : pstrip (fence ++ c ++ fence) = fence ++ c ++ fence := by
    rw [show fence ++ c ++ fence =
          btick :: (("``".data ++ c ++ "``".data) ++ [btick]) by
        rw [show fence = btick :: "``".data from by decide]
        nth_rewrite 2 [show btick :: "``".data = "``".data ++ [btick] from by decide]
        simp]
    exact pstrip_wrap _ _ _ (by decide) (by decide)
  rw [h1]
  unfold stripLeadingFence
  rw [if_neg (by
    rw [show fenceJson = fence ++ "json".data from by decide, List.append_assoc,
      isPrefixOf_append_both, json_prefix_past_fence, h]
    simp)]
  rw [if_pos (by
    rw [List.isPrefixOf_iff_prefix, List.append_assoc]
    exact List.prefix_append _ _)]
  rw [List.append_assoc, List.drop_left' (by decide : fence.length = 3)]
  unfold stripTrailingFence
  rw [if_pos (by
    rw [List.isSuffixOf_iff_suffix]
    exact List.suffix_append _ _)]
  rw [show (c ++ fence).length - 3 = c.length by simp [fence], List.take_left]

/-- C3 counterexample: with the language tag `python` the cleaner does not
recover the wrapped content — it strips only three backticks, leaving the tag
glued to the content. -/
theorem c3_any_tag_counterexample :
    clean_json_response ("```python".data ++ "ok".data ++ fence) =
      "pythonok".data ∧
    "pythonok".data ≠ pstrip "ok".data := by decide

/-- C3 amended: fence unwrapping recovers the content (up to whitespace
trimming) for the `json`-tagged fence and for the bare fence — the only
fences the code knows — provided, in the bare case, that the content does not
itself begin with `json`; other language tags are not stripped. -/
theorem c3_fence_stripping_amended (c : List Char) :
    clean_json_response (fenceJson ++ c ++ fence) = pstrip c ∧
    ("json".data.isPrefixOf c = false →
      clean_json_response (fence ++ c ++ fence) = pstrip c) :=
  ⟨clean_json_tagged c, fun h => clean_json_bare c h⟩

theorem c3_fence_stripping_amended_witness :
    clean_json_response (fenceJson ++ "ok".data ++ fence) = pstrip "ok".data ∧
    clean_json_response (fence ++ "ok".data ++ fence) = pstrip "ok".data :=
  ⟨(c3_fence_stripping_amended "ok".data).1,
   (c3_fence_stripping_amended "ok".data).2 (by decide)⟩

/-- C4 counterexample: the cleaner is not idempotent — on an input carrying a
second layer of fences, one application leaves a json-tagged fence exposed and
a second application strips it further. -/
theorem c4_idempotence_counterexample :
    clean_json_response (clean_json_response "``` ```json stuff```".data) ≠
      clean_json_response "``` ```json stuff```".data := by decide

/-- C4 amended: the cleaner is idempotent on every input whose single
cleaning leaves no leading and no trailing fence marker; in particular,
cleaning fence-free (already clean) text is a no-op.  A second application
can differ only by stripping fences re-exposed by the first. -/
theorem c4_idempotent_when_no_fences_remain (s : List Char)
    (h1 : fence.isPrefixOf (clean_json_response s) = false)
    (h2 : fence.isSuffixOf (clean_json_response s) = false) :
    clean_json_response (clean_json_response s) = clean_json_response s := by
  have hps : pstrip (clean_json_response s) = clean_json_response s := by
    unfold clean_json_response
    exact pstrip_idem _
  have hfj : fenceJson.isPrefixOf (clean_json_response s) = false := by
    cases hb : fenceJson.isPrefixOf (clean_json_response s) with
    | false => rfl
    | true =>
      exfalso
      have hp := List.isPrefixOf_iff_prefix.mp hb
      have hfp : fence <+: clean_json_response s :=
        List.IsPrefix.trans (by decide : fence <+: fenceJson) hp
      rw [← List.isPrefixOf_iff_prefix, h1] at hfp
      exact Bool.false_ne_true hfp
  have hstep : clean_json_response (clean_json_response s) =
      pstrip (stripTrailingFence (stripLeadingFence
        (pstrip (clean_json_response s)))) := rfl
  rw [hstep, hps]
  unfold stripLeadingFence
  rw [if_neg (by rw [hfj]; simp), if_neg (by rw [h1]; simp)]
  unfold stripTrailingFence
  rw [if_neg (by rw [h2]; simp)]
  exact hps

theorem c4_idempotent_when_no_fences_remain_witness :
    clean_json_response (clean_json_response "abc".data) =
      clean_json_response "abc".data :=
  c4_idempotent_when_no_fences_remain "abc".data (by decide) (by decide)

/-! ## Sorting lemmas for the template-listing operation -/

theorem lexLe_total (a b : List Char) : lexLe a b = true ∨ lexLe b a = true := by
  induction a generalizing b with
  | nil => exact Or.inl rfl
  | cons x as ih =>
    cases b with
    | nil => exact Or.inr rfl
    | cons y bs =>
      by_cases hxy : x = y
      · subst hxy
        unfold lexLe
        rw [if_pos rfl, if_pos rfl]
        exact ih bs
      · unfold lexLe
        rw [if_neg hxy, if_neg (Ne.symm hxy)]
        rcases lt_or_gt_of_ne hxy with h | h
        · exact Or.inl (by simpa using h)
        · exact Or.inr (by simpa using h)

theorem lexLe_trans (a b c : List Char) (h1 : lexLe a b = true)
    (h2 : lexLe b c = true) : lexLe a c = true := by
  induction a generalizing b c with
  | nil => rfl
  | cons x as ih =>
    cases b with
    | nil => simp [lexLe] at h1
    | cons y bs =>
      cases c with
      | nil => simp [lexLe] at h2
      | cons z cs =>
        unfold lexLe at h1 h2 ⊢
        by_cases hxy : x = y
        · subst hxy
          rw [if_pos rfl] at h1
          by_cases hyz : x = z
          · subst hyz
            rw [if_pos rfl] at h2
            rw [if_pos rfl]
            exact ih bs cs h1 h2
          · rw [if_neg hyz] at h2
            rw [if_neg hyz]
            exact h2
        · rw [if_neg hxy] at h1
          have hlt1 : x < y := by simpa using h1
          by_cases hyz : y = z
          · subst hyz
            rw [if_neg hxy]
            simpa using hlt1
          · rw [if_neg hyz] at h2
            have hlt2 : y < z := by simpa using h2
            have hxz : x < z := lt_trans hlt1 hlt2
            rw [if_neg (ne_of_lt hxz)]
            simpa using hxz

theorem mem_insertLe (x a : String) (l : List String) :
    a ∈ insertLe x l ↔ a = x ∨ a ∈ l := by
  induction l with
  | nil => simp [insertLe]
  | cons y ys ih =>
    unfold insertLe
    by_cases h : lexLe x.data y.data = true
    · rw [if_pos h]
      simp [List.mem_cons]
    · rw [if_neg h]
      simp only [List.mem_cons, ih]
      tauto

theorem pairwise_insertLe (x : String) (l : List String)
    (hl : l.Pairwise (fun a b => lexLe a.data b.data = true)) :
    (insertLe x l).Pairwise (fun a b => lexLe a.data b.data = true) := by
  induction l with
  | nil => simp [insertLe]
  | cons y ys ih =>
    rcases List.pairwise_cons.mp hl with ⟨hy, hys⟩
    unfold insertLe
    by_cases h : lexLe x.data y.data = true
    · rw [if_pos h]
      refine List.pairwise_cons.mpr ⟨?_, hl⟩
      intro b hb
      rcases List.mem_cons.mp hb with rfl | hb
      · exact h
      · exact lexLe_trans _ _ _ h (hy b hb)
    · rw [if_neg h]
      refine List.pairwise_cons.mpr ⟨?_, ih hys⟩
      intro b hb
      rcases (mem_insertLe x b ys).mp hb with rfl | hb
      · rcases lexLe_total b.data y.data with h1 | h1
        · exact absurd h1 h
        · exact h1
      · exact hy b hb

theorem pysorted_sorted (l : List String) :
    (pysorted l).Pairwise (fun a b => lexLe a.data b.data = true) := by
  induction l with
  | nil => simp [pysorted]
  | cons x xs ih => exact pairwise_insertLe x _ ih

theorem mem_pysorted (a : String) (l : List String) :
    a ∈ pysorted l ↔ a ∈ l := by
  induction l with
  | nil => simp [pysorted]
  | cons x xs ih =>
    unfold pysorted
    rw [mem_insertLe]
    simp [ih]

/-- C7 counterexample: the category filter is a raw name-prefix match, not an
equality on the name's first-separator category — `sentimental_v1` is listed
under category `sentiment` although its underscore-category is
`sentimental`. -/
theorem c7_category_filter_counterexample :
    list_templates lib7 (some "sentiment") =
      ["sentiment_v1", "sentimental_v1"] ∧
    categoryOf "sentimental_v1" ≠ "sentiment" := by decide

/-- C7 amended: listing returns the template names sorted lexicographically;
a (nonempty) category argument keeps exactly the names that start with the
lowercased category string — a prefix match on the raw name rather than an
equality of the split-on-first-separator category. -/
theorem c7_list_templates_amended (lib : PromptLibrary) (c : String)
    (hc : ¬ c = "") :
    (list_templates lib Option.none).Pairwise
      (fun a b => lexLe a.data b.data = true) ∧
    (∀ n, n ∈ list_templates lib Option.none ↔
      n ∈ lib.templates.map Prod.fst) ∧
    (list_templates lib (some c)).Pairwise
      (fun a b => lexLe a.data b.data = true) ∧
    (∀ n, n ∈ list_templates lib (some c) ↔
      (n ∈ lib.templates.map Prod.fst ∧
        (c.data.map Char.toLower).isPrefixOf n.data = true)) := by
  simp only [list_templates]
  rw [if_neg hc]
  exact ⟨pysorted_sorted _, fun n => mem_pysorted _ _, pysorted_sorted _,
    fun n => by rw [mem_pysorted, List.mem_filter]⟩

theorem c7_list_templates_amended_witness :
    (list_templates lib7 Option.none).Pairwise
      (fun a b => lexLe a.data b.data = true) ∧
    (∀ n, n ∈ list_templates lib7 Option.none ↔
      n ∈ lib7.templates.map Prod.fst) ∧
    (list_templates lib7 (some "sentiment")).Pairwise
      (fun a b => lexLe a.data b.data = true) ∧
    (∀ n, n ∈ list_templates lib7 (some "sentiment") ↔
      (n ∈ lib7.templates.map Prod.fst ∧
        ("sentiment".data.map Char.toLower).isPrefixOf n.data = true)) :=
  c7_list_templates_amended lib7 "sentiment" (by decide)

/-! ## Template-store load lemmas -/

theorem loadLoop_ok_front (pre : List (String × TemplateConfig))
    (hpre : ∀ e ∈ pre, entryOk e = true) (lib : PromptLibrary)
    (rest : List (String × TemplateConfig)) :
    loadLoop lib (pre ++ rest) = loadLoop (loadLoop lib pre).1 rest := by
  induction pre generalizing lib with
  | nil => rfl
  | cons e pre' ih =>
    obtain ⟨name, cfg⟩ := e
    have he := hpre _ (List.mem_cons_self _ _)
    unfold entryOk at he
    cases hm : cfg.messages with
    | none => simp only [hm] at he; simp at he
    | some msgs =>
      simp only [hm] at he
      cases hb : buildMessages msgs with
      | none => rw [hb] at he; simp at he
      | some tuples =>
        simp only [List.cons_append, loadLoop, hm, hb]
        exact ih (fun e he' => hpre e (List.mem_cons_of_mem _ he')) _

/-- C1 counterexample: a reload from a source whose second entry lacks its
message list raises, yet afterwards the store holds the first entry of the new
set — neither the previous set nor the empty store, but a proper subset of the
new templates. -/
theorem c1_atomicity_counterexample :
    (reload_templates priorLib (.doc [("a", cfgGood), ("b", cfgBad)])).2 =
      some (.loadFailed "b") ∧
    (reload_templates priorLib (.doc [("a", cfgGood), ("b", cfgBad)])).1.templates =
      [("a", ⟨[("system", "hello")]⟩)] ∧
    (reload_templates priorLib (.doc [("a", cfgGood), ("b", cfgBad)])).1.templates ≠
      priorLib.templates ∧
    (reload_templates priorLib (.doc [("a", cfgGood), ("b", cfgBad)])).1.templates ≠
      [] :=
  ⟨rfl, rfl, by decide, by decide⟩

/-- C1 amended: loading is not atomic.  A reload first clears the store, so
the prior set never survives, even when the load then fails; a failure from an
absent or malformed source leaves the store empty; but a failure on a template
entry (here: one lacking its message list) leaves exactly the templates of the
entries processed before the failing one — a partial load stays visible. -/
theorem c1_load_not_atomic (prior : PromptLibrary) (src : DefSource)
    (pre : List (String × TemplateConfig)) (name : String)
    (cfg : TemplateConfig) (rest : List (String × TemplateConfig)) :
    (reload_templates prior src = reload_templates ⟨[], []⟩ src) ∧
    (reload_templates prior .absent = (⟨[], []⟩, some .fileError)) ∧
    (reload_templates prior .malformed = (⟨[], []⟩, some .jsonError)) ∧
    ((∀ e ∈ pre, entryOk e = true) → cfg.messages = Option.none →
      reload_templates prior (.doc (pre ++ (name, cfg) :: rest)) =
        ((loadLoop ⟨[], []⟩ pre).1, some (.loadFailed name))) := by
  refine ⟨rfl, rfl, rfl, fun hpre hcfg => ?_⟩
  show load_templates ⟨[], []⟩ (.doc (pre ++ (name, cfg) :: rest)) = _
  simp only [load_templates]
  rw [loadLoop_ok_front pre hpre]
  simp only [loadLoop, hcfg]

theorem c1_load_not_atomic_witness :
    (reload_templates priorLib .absent = reload_templates ⟨[], []⟩ .absent) ∧
    (reload_templates priorLib .absent = (⟨[], []⟩, some .fileError)) ∧
    (reload_templates priorLib .malformed = (⟨[], []⟩, some .jsonError)) ∧
    reload_templates priorLib (.doc ([("a", cfgGood)] ++ ("b", cfgBad) :: [])) =
      ((loadLoop ⟨[], []⟩ [("a", cfgGood)]).1, some (.loadFailed "b")) :=
  ⟨(c1_load_not_atomic priorLib .absent [("a", cfgGood)] "b" cfgBad []).1,
   (c1_load_not_atomic priorLib .absent [("a", cfgGood)] "b" cfgBad []).2.1,
   (c1_load_not_atomic priorLib .absent [("a", cfgGood)] "b" cfgBad []).2.2.1,
   (c1_load_not_atomic priorLib .absent [("a", cfgGood)] "b" cfgBad []).2.2.2
     (by decide) rfl⟩

end PromptPipeline
